import Mathlib

/-!
Shallow embedding of the tinykv raft module (src/raft/raft.go together with the
log portion of that file, and src/raft/msg.go), with theorems settling the
frozen claims about it.

Modelling conventions: Go uint64 values become Nat (no arithmetic here comes
near overflow and all concrete values are small); Go nil slices become none or
[]; the Go map Prs keyed by peer id becomes an association list in insertion
order (no modelled operation depends on map iteration order: the only whole-map
iteration, in becomeLeader, updates each entry independently); a Go panic
becomes an Option-returning function whose none case is the panic; the stepFunc
field step is kept in sync with State by the source at every transition, so
dispatch is modelled through State.
-/

/-- Role of a node, StateType in raft.go. -/
inductive StateType where
  | StateFollower
  | StateCandidate
  | StateLeader
deriving DecidableEq, Repr

/-- Error values of the raft package: ErrCompacted and ErrUnavailable are what
entryAt reports below and above the in-memory window, ErrSnapshotTemporarilyUnavailable
is the storage snapshot retry signal. -/
inductive RaftError where
  | ErrCompacted
  | ErrUnavailable
  | ErrSnapshotTemporarilyUnavailable
deriving DecidableEq, Repr

/-- Modelled from the spec: the error name LogIsCompacted that handleAppendEntries
compares the entryAt error against is declared outside src/. Per spec section 4.3.4
step 1, the compacted-prev case is the non-reject catch-up path, so LogIsCompacted
is the compacted-log error. -/
def LogIsCompacted : RaftError := RaftError.ErrCompacted

/-- Log entry, pb.Entry: Index, Term, and a Data payload (none models a nil slice). -/
structure Entry where
  Index : Nat := 0
  Term : Nat := 0
  Data : Option (List Nat) := none
deriving DecidableEq, Repr

/-- Message discriminator, pb.MessageType (the constructors the source handles). -/
inductive MessageType where
  | MsgHup
  | MsgBeat
  | MsgPropose
  | MsgAppend
  | MsgAppendResponse
  | MsgRequestVote
  | MsgRequestVoteResponse
  | MsgSnapshot
  | MsgHeartbeat
  | MsgHeartbeatResponse
deriving DecidableEq, Repr

/-- Protocol message, pb.Message. Field defaults are the Go zero values. The
snapshot payload field is omitted: no modelled operation reads or writes it. -/
structure Message where
  MsgType : MessageType
  To : Nat := 0
  From : Nat := 0
  Term : Nat := 0
  LogTerm : Nat := 0
  Index : Nat := 0
  Entries : List Entry := []
  Commit : Nat := 0
  Reject : Bool := false
deriving DecidableEq, Repr

/-- Persisted hard state, pb.HardState: Term, Vote, Commit. -/
structure HardState where
  Term : Nat := 0
  Vote : Nat := 0
  Commit : Nat := 0
deriving DecidableEq, Repr

/-- Replication progress of one follower in the view of the leader, raft.go. -/
structure Progress where
  Match : Nat := 0
  Next : Nat := 0
deriving DecidableEq, Repr

/-- Progress.mayUpdateIndex from raft.go: raise Match to index when larger, then
raise Next to at least Match + 1. -/
def Progress.mayUpdateIndex (p : Progress) (index : Nat) : Progress :=
  let p := if index > p.Match then { p with Match := index } else p
  { p with Next := max (p.Match + 1) p.Next }

/-- Storage interface of the raft package. Each operation mirrors one method;
methods that return a Go error become Except values. -/
structure Storage where
  InitialState : Except RaftError HardState
  FirstIndex : Except RaftError Nat
  LastIndex : Except RaftError Nat
  TermAt : Nat → Except RaftError Nat
  EntriesIn : Nat → Nat → Except RaftError (List Entry)

/-- In-memory log window, RaftLog from the log portion of the source. The
storage back-reference is not carried here: the modelled RaftLog operations
never read it (only the snapshot send path does, which no claim touches). -/
structure RaftLog where
  committed : Nat := 0
  applied : Nat := 0
  stabled : Nat := 0
  entries : List Entry := []
  start : Nat := 0
deriving DecidableEq, Repr

/-- RaftLog.LastLog: the final element of entries. The source indexes
entries[len-1] and entries is never empty there (it always holds the sentinel);
the default is only to make the function total. -/
def RaftLog.LastLog (l : RaftLog) : Entry :=
  l.entries.getLastD { Index := 0, Term := 0, Data := none }

/-- RaftLog.LastIndex. -/
def RaftLog.LastIndex (l : RaftLog) : Nat := l.LastLog.Index

/-- RaftLog.NextIndex. -/
def RaftLog.NextIndex (l : RaftLog) : Nat := l.LastLog.Index + 1

/-- RaftLog.LastTerm. -/
def RaftLog.LastTerm (l : RaftLog) : Nat := l.LastLog.Term

/-- RaftLog.First: start + 1, the first non-sentinel index. -/
def RaftLog.First (l : RaftLog) : Nat := l.start + 1

/-- RaftLog.entryAt: the sentinel at start, ErrCompacted below First,
ErrUnavailable above LastIndex, otherwise entries[index - start]. The source
returns a pointer into entries; values are returned here. -/
def RaftLog.entryAt (l : RaftLog) (index : Nat) : Except RaftError Entry :=
  if index = l.start then .ok (l.entries.getD 0 { Index := 0, Term := 0, Data := none })
  else if index < l.First then .error .ErrCompacted
  else if l.LastIndex < index then .error .ErrUnavailable
  else .ok (l.entries.getD (index - l.start) { Index := 0, Term := 0, Data := none })

/-- RaftLog.append: blind append, returning the log and the new LastIndex. -/
def RaftLog.append (l : RaftLog) (es : List Entry) : RaftLog × Nat :=
  let l := { l with entries := l.entries ++ es }
  (l, l.LastIndex)

/-- RaftLog.Contain: index lies in [First, LastIndex]. -/
def RaftLog.Contain (l : RaftLog) (index : Nat) : Bool :=
  decide (l.First ≤ index) && decide (index ≤ l.LastIndex)

/-- RaftLog.IsConflict: the log does not contain the index, or the entry there
has a different term. The source short-circuits, reading entries[index - start]
only when contained; the total getD read here agrees on that case. -/
def RaftLog.IsConflict (l : RaftLog) (index term : Nat) : Bool :=
  !(l.Contain index) ||
    decide ((l.entries.getD (index - l.start) { Index := 0, Term := 0, Data := none }).Term ≠ term)

/-- RaftLog.truncate: keep entries strictly below index (entries[:index-start])
and roll stabled down to the new LastIndex if needed. -/
def RaftLog.truncate (l : RaftLog) (index : Nat) : RaftLog :=
  let l := { l with entries := l.entries.take (index - l.start) }
  { l with stabled := min l.stabled l.LastIndex }

/-- RaftLog.updateCommitIndex: monotone set of committed, ignoring smaller values. -/
def RaftLog.updateCommitIndex (l : RaftLog) (commit : Nat) : RaftLog :=
  if commit < l.committed then l else { l with committed := commit }

/-- newLog from the source: recover committed from the persisted HardState, set
start to FirstIndex - 1, applied to start, stabled to the persisted LastIndex,
and load entries as a sentinel (Index = start, Term from storage) followed by
the persisted entries in [FirstIndex, LastIndex]. Every mustBeNil panic on a
storage error becomes none. -/
def newLog (storage : Storage) : Option RaftLog := do
  let state ← storage.InitialState.toOption
  let first ← storage.FirstIndex.toOption
  let start := first - 1
  let lastIndex ← storage.LastIndex.toOption
  let ents ← (storage.EntriesIn first (lastIndex + 1)).toOption
  let sentinelTerm ← (storage.TermAt start).toOption
  some { committed := state.Commit, applied := start, stabled := lastIndex,
         entries := { Index := start, Term := sentinelTerm, Data := none } :: ents,
         start := start }

/-- Node state, the Raft struct of raft.go. The stepFunc field is represented
by State (the source keeps the two in sync at every transition). leadTransferee
and PendingConfIndex are carried for completeness; no modelled operation
touches them. -/
structure Raft where
  id : Nat := 0
  peers : List Nat := []
  Term : Nat := 0
  Vote : Nat := 0
  RaftLog : RaftLog := {}
  Prs : List (Nat × Progress) := []
  State : StateType := .StateFollower
  votes : List (Nat × Bool) := []
  msgs : List Message := []
  Lead : Nat := 0
  heartbeatTimeout : Nat := 0
  electionTimeout : Nat := 0
  heartbeatElapsed : Nat := 0
  electionElapsed : Nat := 0
  leadTransferee : Nat := 0
  PendingConfIndex : Nat := 0
deriving DecidableEq, Repr

/-- Lookup in the Prs map; a missing key yields the zero Progress. In the
source a missing key yields a nil pointer whose later dereference aborts; every
concrete state below keeps the accessed keys present. -/
def getPr (prs : List (Nat × Progress)) (id : Nat) : Progress :=
  (prs.lookup id).getD {}

/-- Update of one key of the Prs map (the source mutates through the pointer). -/
def setPr (prs : List (Nat × Progress)) (id : Nat) (p : Progress) : List (Nat × Progress) :=
  prs.map fun kv => if kv.1 = id then (kv.1, p) else kv

/-- Config from raft.go. The Go field Storage is nilable, hence Option. -/
structure Config where
  ID : Nat := 0
  peers : List Nat := []
  ElectionTick : Nat := 0
  HeartbeatTick : Nat := 0
  storage : Option Storage := none
  Applied : Nat := 0

/-- Config.validate: ID nonzero, HeartbeatTick positive, ElectionTick greater
than HeartbeatTick, storage non-nil. True models a nil error. -/
def Config.validate (c : Config) : Bool :=
  if c.ID = 0 then false
  else if c.HeartbeatTick ≤ 0 then false
  else if c.ElectionTick ≤ c.HeartbeatTick then false
  else if c.storage.isNone then false
  else true

/-- becomeFollower from raft.go: set the term, clear the vote, set lead, reset
the election timer, enter Follower (and point step at stepFollower). -/
def becomeFollower (r : Raft) (term lead : Nat) : Raft :=
  { r with Term := term, Vote := 0, Lead := lead,
           electionElapsed := 0, State := .StateFollower }

/-- becomeCandidate from raft.go: enter Candidate, increment the term, vote for
self, reset the votes record. -/
def becomeCandidate (r : Raft) : Raft :=
  { r with State := .StateCandidate, Term := r.Term + 1, Vote := r.id, votes := [] }

/-- send from raft.go: default the message Term to the node term and From to
the node id, then append to the outbound buffer. -/
def send (r : Raft) (m : Message) : Raft :=
  let m := if m.Term = 0 then { m with Term := r.Term } else m
  let m := if m.From = 0 then { m with From := r.id } else m
  { r with msgs := r.msgs ++ [m] }

/-- newRaft from raft.go. The random election jitter randN(ElectionTick) is
passed in as rnd (the source draws it from a process-global PRNG); the
constructed node then goes through becomeFollower(raft.Term, None) where
raft.Term is still the zero value, not the persisted term. none models the
panic on an invalid config or a storage fault in newLog. -/
def newRaft (c : Config) (rnd : Nat) : Option Raft := do
  if !c.validate then none else
  let storage ← c.storage
  let rl ← newLog storage
  let raft : Raft :=
    { id := c.ID, peers := c.peers, RaftLog := rl,
      Prs := c.peers.map (fun peer => (peer, {})),
      State := .StateFollower, votes := [], msgs := [],
      heartbeatTimeout := c.HeartbeatTick,
      electionTimeout := c.ElectionTick + rnd % c.ElectionTick }
  some (becomeFollower raft raft.Term 0)

/-- NewHeartbeatMsg as defined in src/raft/msg.go: panic unless Leader, then a
MsgHeartbeat to the peer carrying Commit = r.RaftLog.committed. Note the call
site in raft.go (sendHeartbeat) passes a second, clamped commit argument that
this constructor does not take; the constructor in src/ stamps the message with
the unclamped committed value. -/
def NewHeartbeatMsg (r : Raft) (dst : Nat) : Option Message :=
  if r.State ≠ .StateLeader then none
  else some { MsgType := .MsgHeartbeat, To := dst, Commit := r.RaftLog.committed }

/-- NewResponseAppendMsg as called from handleAppendEntries; src/raft/msg.go
carries it under the name NewRespAppendMsg with exactly these fields. -/
def NewResponseAppendMsg (_r : Raft) (dst index : Nat) (reject : Bool) : Message :=
  { MsgType := .MsgAppendResponse, To := dst, Reject := reject, Index := index }

/-- sendHeartbeat from raft.go: panic on sending to self; compute
commit = min(Prs[to].Match, committed); build and send the heartbeat. The
computed commit is handed to NewHeartbeatMsg in the source, but the msg.go
constructor ignores it and uses r.RaftLog.committed (see NewHeartbeatMsg). -/
def sendHeartbeat (r : Raft) (dst : Nat) : Option Raft :=
  if dst = r.id then none
  else
    let commit := min (getPr r.Prs dst).Match r.RaftLog.committed
    let _ := commit
    (NewHeartbeatMsg r dst).map (fun msg => send r msg)

/-- Modelled from the spec: nodes(r), the cluster id list Visit iterates, is
defined outside src/; per the Config documentation peers holds the ids of all
nodes including self. -/
def nodes (r : Raft) : List Nat := r.peers

/-- stepLeader from raft.go: panic (none) unless Leader. MsgHeartbeat
broadcasts sendHeartbeat to every node except self (Visit with sendMe=false).
MsgAppendResponse with Reject=false raises the sender Next to
max(Next, Index+1) and Match to max(Match, Index) and does nothing further;
with Reject=true it only logs. The MsgPropose branch (handleProse, which is
leaderAppendEntries followed by bcastAppend) is not modelled here: the claims
about the propose path are settled directly on leaderAppendEntries, and no
claim evaluates stepLeader on MsgPropose. Every other message type falls
through the switch unchanged. -/
def stepLeader (r : Raft) (m : Message) : Option Raft :=
  if r.State ≠ .StateLeader then none
  else match m.MsgType with
  | .MsgHeartbeat =>
      some ((nodes r).foldl
        (fun acc dst => if acc.id = dst then acc else (sendHeartbeat acc dst).getD acc) r)
  | .MsgAppendResponse =>
      let pr := getPr r.Prs m.From
      if m.Reject = false then
        let pr := { pr with Next := max pr.Next (m.Index + 1) }
        let pr := { pr with Match := max pr.Match m.Index }
        some { r with Prs := setPr r.Prs m.From pr }
      else
        some r
  | _ => some r

/-- tick from raft.go: advance both elapsed counters; a Leader whose heartbeat
timer expired steps a local MsgBeat through its step function (stepLeader for a
Leader, where MsgBeat matches no case); a non-leader whose election timer
expired calls becomeCandidate directly. -/
def tick (r : Raft) : Raft :=
  let r := { r with heartbeatElapsed := r.heartbeatElapsed + 1,
                    electionElapsed := r.electionElapsed + 1 }
  if r.State = .StateLeader then
    if r.heartbeatElapsed ≥ r.heartbeatTimeout then (stepLeader r { MsgType := .MsgBeat }).getD r
    else r
  else
    if r.electionElapsed ≥ r.electionTimeout then becomeCandidate r
    else r

/-- handleHeartbeat from raft.go: unconditionally becomeFollower at the message
term with lead set to m.To, the receiver itself. -/
def handleHeartbeat (r : Raft) (m : Message) : Raft :=
  becomeFollower r m.Term m.To

/-- Follower-side appendEntries from raft.go: for each incoming entry, a
conflicting one truncates the log from its index and is then appended; a
contained non-conflicting one is skipped; anything else is appended. Returns
the node and the resulting LastIndex. -/
def appendEntries (r : Raft) (entries : List Entry) : Raft × Nat :=
  let rl := entries.foldl
    (fun rl entry =>
      if rl.IsConflict entry.Index entry.Term then
        ((rl.truncate entry.Index).append [entry]).1
      else if rl.Contain entry.Index then rl
      else (rl.append [entry]).1)
    r.RaftLog
  ({ r with RaftLog := rl }, rl.LastIndex)

/-- handleAppendEntries from raft.go. A missing prev entry rejects, except the
compacted case which acks with index = committed; a prev term mismatch rejects;
otherwise reset the election timer, run appendEntries, raise committed to
min(newIndex, m.Commit) when committed < m.Commit (newIndex being the log
LastIndex after the append), and ack with index = m.Index + len(m.Entries). -/
def handleAppendEntries (r : Raft) (m : Message) : Raft :=
  match r.RaftLog.entryAt m.Index with
  | .error e =>
      if e = LogIsCompacted then
        send r (NewResponseAppendMsg r m.From r.RaftLog.committed false)
      else
        send r (NewResponseAppendMsg r m.From 0 true)
  | .ok prevLog =>
      if prevLog.Term ≠ m.LogTerm then
        send r (NewResponseAppendMsg r m.From 0 true)
      else
        let r := { r with electionElapsed := 0 }
        let ap := appendEntries r m.Entries
        let r := ap.1
        let newIndex := ap.2
        let myCommit := r.RaftLog.committed
        let r := if myCommit < m.Commit then
                   { r with RaftLog := r.RaftLog.updateCommitIndex (min newIndex m.Commit) }
                 else r
        send r (NewResponseAppendMsg r m.From (m.Index + m.Entries.length) false)

/-- leaderAppendEntries from raft.go: panic (none) unless Leader; stamp each
entry with the leader term and sequential indices from LastIndex + 1; append
them; send a MsgAppendResponse addressed to the own id with the new LastIndex;
raise the own Progress through mayUpdateIndex. Returns the node and the new
LastIndex. -/
def leaderAppendEntries (r : Raft) (es : List Entry) : Option (Raft × Nat) :=
  if r.State ≠ .StateLeader then none
  else
    let li := r.RaftLog.LastIndex
    let esA := es.enum.map (fun ie => { Index := li + 1 + ie.1, Term := r.Term, Data := ie.2.Data })
    let ap := r.RaftLog.append esA
    let r1 := { r with RaftLog := ap.1 }
    let li2 := ap.2
    let r2 := send r1 { MsgType := .MsgAppendResponse, To := r.id, Index := li2, Reject := false }
    let r3 := { r2 with Prs := setPr r2.Prs r.id (Progress.mayUpdateIndex (getPr r2.Prs r.id) li2) }
    some (r3, li2)

/-- becomeLeader from raft.go: panic (none) unless a Candidate with a vote set;
enter Leader, reset the election timer, set every Progress Next to Match + 1,
set Lead to the own id, and append the no-op entry written in the source as
Entry with Term = r.Term and Index = 1 (leaderAppendEntries restamps it). -/
def becomeLeader (r : Raft) : Option Raft :=
  if r.Vote = 0 ∨ r.State ≠ .StateCandidate then none
  else
    let prs := r.Prs.map (fun kv => (kv.1, { kv.2 with Next := kv.2.Match + 1 }))
    let r1 := { r with State := .StateLeader, electionElapsed := 0, Prs := prs, Lead := r.id }
    (leaderAppendEntries r1 [{ Index := 1, Term := r.Term, Data := none }]).map Prod.fst

/-- Insertion into a descending-sorted list, used by sortDesc. -/
def insertDesc (x : Nat) : List Nat → List Nat
  | [] => [x]
  | y :: ys => if y ≤ x then x :: y :: ys else y :: insertDesc x ys

/-- Descending sort of a list of naturals. -/
def sortDesc (l : List Nat) : List Nat := l.foldr insertDesc []

/-- Modelled from the spec (section 4.3.6), for comparison with the source:
the commit the Leader is said to compute after a match change. Collect all
Match values, sort descending, take the element at position q - 1 with
q = n / 2 + 1, and commit to it only when it exceeds committed and its entry
carries the current term; otherwise committed stays. -/
def specMaybeCommit (r : Raft) : Nat :=
  let ms := sortDesc (r.Prs.map (fun kv => kv.2.Match))
  let q := r.Prs.length / 2 + 1
  let N := ms.getD (q - 1) 0
  match r.RaftLog.entryAt N with
  | .ok e => if r.RaftLog.committed < N ∧ e.Term = r.Term then N else r.RaftLog.committed
  | .error _ => r.RaftLog.committed

/-- Concrete Leader state for claim C1: term 1, one term-1 entry at index 1,
nothing committed, own Match already 1, peers 2 and 3 at Match 0. -/
def C1r : Raft where
  id := 1
  peers := [1, 2, 3]
  Term := 1
  Vote := 1
  RaftLog := { committed := 0, applied := 0, stabled := 0, entries := [⟨0, 0, none⟩, ⟨1, 1, none⟩], start := 0 }
  Prs := [(1, { Match := 1, Next := 2 }), (2, { Match := 0, Next := 1 }), (3, { Match := 0, Next := 1 })]
  State := .StateLeader
  Lead := 1
  heartbeatTimeout := 1
  electionTimeout := 10

/-- Non-rejecting AppendResponse from peer 2 acknowledging index 1, for C1. -/
def C1m : Message where
  MsgType := .MsgAppendResponse
  To := 1
  From := 2
  Term := 1
  Index := 1
  Reject := false

/-- Concrete Follower for claim C2: at term 5 it has granted its vote to peer 2. -/
def C2r : Raft where
  id := 3
  peers := [1, 2, 3]
  Term := 5
  Vote := 2
  State := .StateFollower
  Lead := 1
  electionTimeout := 10
  electionElapsed := 4

/-- Heartbeat at the same term 5 from the current leader 1, for C2. -/
def C2m : Message where
  MsgType := .MsgHeartbeat
  To := 3
  From := 1
  Term := 5

/-- Concrete Candidate for claim C3: it was Leader before (peer 2 Progress at
Match 2, Next 7 survived), log through index 4, now a Candidate at term 2 that
has just won. -/
def C3r : Raft where
  id := 1
  peers := [1, 2]
  Term := 2
  Vote := 1
  RaftLog := { committed := 2, applied := 0, stabled := 4, entries := [⟨0, 0, none⟩, ⟨1, 1, none⟩, ⟨2, 1, none⟩, ⟨3, 1, none⟩, ⟨4, 1, none⟩], start := 0 }
  Prs := [(1, { Match := 4, Next := 5 }), (2, { Match := 2, Next := 7 })]
  State := .StateCandidate
  votes := [(1, true)]
  electionTimeout := 10
  electionElapsed := 3

/-- Result of becomeLeader on C3r, spelled out for the amended-claim witness:
peer 2 keeps Match 2 with Next 3, the own Progress is raised by the no-op
append to (5, 6), and the no-op entry (5, term 2) is appended. -/
def C3res : Raft where
  id := 1
  peers := [1, 2]
  Term := 2
  Vote := 1
  RaftLog := { committed := 2, applied := 0, stabled := 4, entries := [⟨0, 0, none⟩, ⟨1, 1, none⟩, ⟨2, 1, none⟩, ⟨3, 1, none⟩, ⟨4, 1, none⟩, ⟨5, 2, none⟩], start := 0 }
  Prs := [(1, { Match := 5, Next := 6 }), (2, { Match := 2, Next := 3 })]
  State := .StateLeader
  votes := [(1, true)]
  msgs := [{ MsgType := .MsgAppendResponse, To := 1, From := 1, Term := 2, Index := 5 }]
  Lead := 1
  electionTimeout := 10

/-- Persisted entries of the concrete storage for claim C4: three term-2
entries at indices 1 to 3. -/
def C4entries : List Entry := [⟨1, 2, none⟩, ⟨2, 2, none⟩, ⟨3, 2, none⟩]

/-- Concrete storage for claim C4: the persisted HardState says term 5, vote
granted to peer 2, commit 3. -/
def C4storage : Storage where
  InitialState := .ok { Term := 5, Vote := 2, Commit := 3 }
  FirstIndex := .ok 1
  LastIndex := .ok 3
  TermAt := fun i => if i = 0 then .ok 0 else if i ≤ 3 then .ok 2 else .error .ErrUnavailable
  EntriesIn := fun lo hi => .ok (C4entries.filter (fun e => decide (lo ≤ e.Index) && decide (e.Index < hi)))

/-- Valid config over C4storage. -/
def C4cfg : Config where
  ID := 1
  peers := [1, 2, 3]
  ElectionTick := 10
  HeartbeatTick := 1
  storage := some C4storage

/-- Concrete Follower for claim C5: log through index 3, all term 1, nothing
committed. -/
def C5r : Raft where
  id := 1
  peers := [1, 2]
  Term := 1
  RaftLog := { committed := 0, applied := 0, stabled := 3, entries := [⟨0, 0, none⟩, ⟨1, 1, none⟩, ⟨2, 1, none⟩, ⟨3, 1, none⟩], start := 0 }
  State := .StateFollower
  Lead := 2
  electionTimeout := 10
  electionElapsed := 2

/-- Append from the leader for claim C5: prev entry (1, term 1), one entry
(2, term 1) the follower already holds, leader commit 3. -/
def C5m : Message where
  MsgType := .MsgAppend
  To := 1
  From := 2
  Term := 1
  LogTerm := 1
  Index := 1
  Entries := [⟨2, 1, none⟩]
  Commit := 3

/-- Concrete Follower for claim C6: node 2 at term 3 with current leader 1. -/
def C6r : Raft where
  id := 2
  peers := [1, 2, 3]
  Term := 3
  State := .StateFollower
  Lead := 1
  electionTimeout := 10
  electionElapsed := 4

/-- Heartbeat from the current-term leader 1 to node 2, for C6. -/
def C6m : Message where
  MsgType := .MsgHeartbeat
  To := 2
  From := 1
  Term := 3

/-- Concrete Leader for claim C7: peer 2 at Progress (Match 2, Next 5). -/
def C7r : Raft where
  id := 1
  peers := [1, 2]
  Term := 3
  Vote := 1
  RaftLog := { committed := 0, applied := 0, stabled := 0, entries := [⟨0, 0, none⟩], start := 0 }
  Prs := [(1, { Match := 6, Next := 7 }), (2, { Match := 2, Next := 5 })]
  State := .StateLeader
  Lead := 1
  heartbeatTimeout := 1
  electionTimeout := 10

/-- Non-rejecting AppendResponse from peer 2 acknowledging index 4, for C7. -/
def C7m1 : Message where
  MsgType := .MsgAppendResponse
  To := 1
  From := 2
  Term := 3
  Index := 4
  Reject := false

/-- Rejecting AppendResponse from peer 2, for C7. -/
def C7m2 : Message where
  MsgType := .MsgAppendResponse
  To := 1
  From := 2
  Term := 3
  Index := 0
  Reject := true

/-- Concrete Follower for claim C8: term 5, election timer one tick from
expiry, log with one term-5 entry. -/
def C8r : Raft where
  id := 1
  peers := [1, 2, 3]
  Term := 5
  RaftLog := { committed := 0, applied := 0, stabled := 1, entries := [⟨0, 0, none⟩, ⟨1, 5, none⟩], start := 0 }
  State := .StateFollower
  Lead := 2
  heartbeatTimeout := 1
  electionTimeout := 10
  electionElapsed := 9

/-- Concrete Leader for claim C9: committed 5, peer 2 known replicated only
through Match 3. -/
def C9r : Raft where
  id := 1
  peers := [1, 2]
  Term := 2
  Vote := 1
  RaftLog := { committed := 5, applied := 0, stabled := 5, entries := [⟨0, 0, none⟩, ⟨1, 2, none⟩, ⟨2, 2, none⟩, ⟨3, 2, none⟩, ⟨4, 2, none⟩, ⟨5, 2, none⟩], start := 0 }
  Prs := [(1, { Match := 5, Next := 6 }), (2, { Match := 3, Next := 4 })]
  State := .StateLeader
  Lead := 1
  heartbeatTimeout := 1
  electionTimeout := 10

/-- Concrete single-node Leader for the C10 witness. -/
def C10r : Raft where
  id := 1
  peers := [1]
  Term := 1
  Vote := 1
  RaftLog := { committed := 0, applied := 0, stabled := 0, entries := [⟨0, 0, none⟩], start := 0 }
  Prs := [(1, { Match := 0, Next := 1 })]
  State := .StateLeader
  Lead := 1
  heartbeatTimeout := 1
  electionTimeout := 10

/-- Result of leaderAppendEntries on C10r with one blank entry, spelled out. -/
def C10res : Raft where
  id := 1
  peers := [1]
  Term := 1
  Vote := 1
  RaftLog := { committed := 0, applied := 0, stabled := 0, entries := [⟨0, 0, none⟩, ⟨1, 1, none⟩], start := 0 }
  Prs := [(1, { Match := 1, Next := 2 })]
  State := .StateLeader
  msgs := [{ MsgType := .MsgAppendResponse, To := 1, From := 1, Term := 1, Index := 1 }]
  Lead := 1
  heartbeatTimeout := 1
  electionTimeout := 10

/-- C1: the claim says that on every non-rejecting AppendResponse the Leader
recomputes the commit index (quorum of Match values plus the own-term
condition). At a state where peer 2 acknowledging index 1 creates a quorum at
an own-term entry, the spec-side rule yields 1, yet the source leaves committed
at 0: the AppendResponse arm of stepLeader only updates the sender Progress and
never touches committed. -/
theorem C1_leader_ignores_append_response_for_commit :
    (stepLeader C1r C1m).map (fun r => (r.RaftLog.committed, specMaybeCommit r)) = some (0, 1) := by
  decide

/-- C2: the claim says a granted vote at term T is never cleared unless the
term increases. handleHeartbeat calls becomeFollower(m.Term, m.To), which
always clears Vote: at an unchanged term 5 the granted vote for peer 2 becomes
None, so a second grant at term 5 becomes possible. -/
theorem C2_heartbeat_clears_vote_at_same_term :
    C2r.Term = 5 ∧ C2r.Vote = 2 ∧
    (handleHeartbeat C2r C2m).Term = 5 ∧ (handleHeartbeat C2r C2m).Vote = 0 := by
  decide

/-- C3 counterexample: the claim says becomeLeader resets every Progress to
Match = 0 and Next = last_index + 1 = 5; the source instead sets
Next = Match + 1 and leaves Match alone, giving peer 2 the Progress
(Match 2, Next 3). -/
theorem C3_progress_reset_counterexample :
    (becomeLeader C3r).map (fun r => getPr r.Prs 2) = some { Match := 2, Next := 3 } ∧
    ({ Match := 2, Next := 3 } : Progress) ≠ { Match := 0, Next := C3r.RaftLog.LastIndex + 1 } := by
  decide

/-- Membership in the Prs map survives an update of a different key. -/
theorem mem_setPr_of_ne (prs : List (Nat × Progress)) (i : Nat) (v : Progress)
    (p : Nat) (q : Progress) (hne : p ≠ i) (h : (p, q) ∈ prs) : (p, q) ∈ setPr prs i v := by
  have h2 := List.mem_map_of_mem (fun kv : Nat × Progress => if kv.1 = i then (kv.1, v) else kv) h
  simpa [setPr, hne] using h2

/-- C3 as amended: on becomeLeader (reachable only as a Candidate with a vote
set) the node enters Leader, sets lead to its own id, resets its election
timer, sets every Progress Next to Match + 1 with Match unchanged (stated here
for the peers other than self, whose Progress the no-op append then raises),
and appends exactly one no-op entry carrying the current term and index
last_index + 1 (the Index = 1 written in becomeLeader is restamped by
leaderAppendEntries). -/
theorem C3_becomeLeader_amended (r r' : Raft)
    (hs : r.State = .StateCandidate) (hv : r.Vote ≠ 0)
    (heq : becomeLeader r = some r') :
    r'.State = .StateLeader ∧ r'.Lead = r.id ∧ r'.electionElapsed = 0 ∧
    (∀ p pr, (p, pr) ∈ r.Prs → p ≠ r.id →
      ((p, { Match := pr.Match, Next := pr.Match + 1 }) : Nat × Progress) ∈ r'.Prs) ∧
    r'.RaftLog.entries
      = r.RaftLog.entries ++ [{ Index := r.RaftLog.LastIndex + 1, Term := r.Term, Data := none }] := by
  have hguard : ¬ (r.Vote = 0 ∨ r.State ≠ .StateCandidate) := by
    simp [hs, hv]
  unfold becomeLeader at heq
  rw [if_neg hguard] at heq
  injection heq with heq
  subst heq
  refine ⟨rfl, rfl, rfl, ?_, rfl⟩
  intro p pr hmem hne
  exact mem_setPr_of_ne _ _ _ _ _ hne
    (List.mem_map_of_mem (fun kv => (kv.1, { kv.2 with Next := kv.2.Match + 1 })) hmem)

/-- Witness for C3_becomeLeader_amended: its hypotheses hold at the concrete
candidate C3r, whose becomeLeader result is C3res. -/
theorem C3_becomeLeader_amended_witness :
    C3r.State = .StateCandidate ∧ C3r.Vote ≠ 0 ∧ becomeLeader C3r = some C3res ∧
    (C3res.State = .StateLeader ∧ C3res.Lead = C3r.id ∧ C3res.electionElapsed = 0 ∧
     (∀ p pr, (p, pr) ∈ C3r.Prs → p ≠ C3r.id →
       ((p, { Match := pr.Match, Next := pr.Match + 1 }) : Nat × Progress) ∈ C3res.Prs) ∧
     C3res.RaftLog.entries
       = C3r.RaftLog.entries ++ [{ Index := C3r.RaftLog.LastIndex + 1, Term := C3r.Term, Data := none }]) :=
  ⟨rfl, by decide, by decide, C3_becomeLeader_amended C3r C3res rfl (by decide) (by decide)⟩

/-- C4: the claim says a newly constructed node recovers term, vote and commit
from the persisted HardState and starts as a Follower at the recovered term.
newRaft recovers only the commit index (3); it leaves the node term at the Go
zero value and goes through becomeFollower(raft.Term, None), which also clears
the vote, so the node starts at term 0 with no vote instead of term 5 with
vote 2. -/
theorem C4_newRaft_drops_persisted_term_and_vote :
    (newRaft C4cfg 0).map (fun r => (r.Term, r.Vote, r.RaftLog.committed, r.State))
      = some (0, 0, 3, .StateFollower) ∧
    C4storage.InitialState.toOption = some { Term := 5, Vote := 2, Commit := 3 } := by
  exact ⟨by decide, rfl⟩

/-- C5: the claim says a successful append sets committed to
min(leader_commit, prev_index + len(entries)) = min(3, 2) = 2 regardless of
extra entries the follower holds. The source instead uses the log LastIndex
after the append (3, because the follower already holds index 3) and commits
min(3, 3) = 3. The reply does carry reject = false and
index = prev_index + len(entries) = 2 as claimed. -/
theorem C5_commit_uses_own_last_index :
    (handleAppendEntries C5r C5m).RaftLog.committed = 3 ∧
    min C5m.Commit (C5m.Index + C5m.Entries.length) = 2 ∧
    (handleAppendEntries C5r C5m).msgs
      = [{ MsgType := .MsgAppendResponse, To := 2, From := 1, Term := 1, Index := 2 }] := by
  decide

/-- C6: the claim says heartbeat reception sets lead to the sender m.From and
resets the election timer. The source handler calls
becomeFollower(m.Term, m.To): the election timer is reset, but lead becomes
m.To, the receiver itself, not the sender. -/
theorem C6_heartbeat_sets_lead_to_receiver :
    (handleHeartbeat C6r C6m).Lead = C6m.To ∧ C6m.To ≠ C6m.From ∧
    (handleHeartbeat C6r C6m).Lead ≠ C6m.From ∧
    (handleHeartbeat C6r C6m).electionElapsed = 0 := by
  decide

/-- C7: on reject = false the source updates peer 2 exactly as the claim says,
to (Match max(2,4) = 4, Next max(5,5) = 5). On reject = true the claim says
Next drops to max(Match + 1, Next - 1) = 4; the source only logs and leaves
the Progress at (2, 5). -/
theorem C7_append_response_progress :
    (stepLeader C7r C7m1).map (fun r => getPr r.Prs 2) = some { Match := 4, Next := 5 } ∧
    (stepLeader C7r C7m2).map (fun r => getPr r.Prs 2) = some { Match := 2, Next := 5 } ∧
    max ((getPr C7r.Prs 2).Match + 1) ((getPr C7r.Prs 2).Next - 1) = 4 := by
  decide

/-- C8: the claim says the expiring tick starts a full election: Candidate at
term + 1 with the self-vote recorded and a RequestVote sent to every other
peer. The source tick only calls becomeCandidate: the node does reach
Candidate at term 6 with Vote = own id, but the votes record stays empty (no
self-vote recorded), no message at all is emitted, and the election timer is
not even reset (hup, which does all of that, is never invoked from tick). -/
theorem C8_tick_starts_no_real_election :
    (tick C8r).State = .StateCandidate ∧ (tick C8r).Term = 6 ∧ (tick C8r).Vote = 1 ∧
    (tick C8r).msgs = [] ∧ (tick C8r).votes = [] ∧ (tick C8r).electionElapsed = 10 := by
  decide

/-- C9: the claim says every heartbeat to peer i carries
commit = min(match[i], committed) = min(3, 5) = 3. sendHeartbeat does compute
that clamped value, but the message constructor in src/raft/msg.go takes no
commit argument and stamps Commit = r.RaftLog.committed, so the emitted
heartbeat carries 5, exceeding what peer 2 is known to have replicated. -/
theorem C9_heartbeat_commit_unclamped :
    (sendHeartbeat C9r 2).map (fun r => r.msgs.map (fun m => (m.MsgType, m.To, m.Commit)))
      = some [(.MsgHeartbeat, 2, 5)] ∧
    min (getPr C9r.Prs 2).Match C9r.RaftLog.committed = 3 := by
  decide

/-- C10: whenever the Leader appends entries through leaderAppendEntries (the
path shared by the becomeLeader no-op and by handleProse on every Propose),
the outbound buffer gains exactly one MsgAppendResponse whose destination To
is the node's own id (send also stamps From and Term). -/
theorem C10_leader_self_append_response (r : Raft) (es : List Entry) (r' : Raft) (li : Nat)
    (h : leaderAppendEntries r es = some (r', li)) :
    r'.msgs = r.msgs ++
      [{ MsgType := .MsgAppendResponse, To := r.id, From := r.id, Term := r.Term, Index := li }] := by
  unfold leaderAppendEntries at h
  split at h
  · exact absurd h (by simp)
  · injection h with h
    injection h with h hli
    subst h
    subst hli
    simp [send]

/-- Witness for C10_leader_self_append_response at the concrete Leader C10r
appending one blank entry. -/
theorem C10_leader_self_append_response_witness :
    leaderAppendEntries C10r [{ Index := 0, Term := 0, Data := none }] = some (C10res, 1) ∧
    C10res.msgs = C10r.msgs ++
      [{ MsgType := .MsgAppendResponse, To := C10r.id, From := C10r.id, Term := C10r.Term, Index := 1 }] := by
  have h : leaderAppendEntries C10r [{ Index := 0, Term := 0, Data := none }] = some (C10res, 1) := by
    decide
  exact ⟨h, C10_leader_self_append_response C10r [{ Index := 0, Term := 0, Data := none }] C10res 1 h⟩
